import Mathlib

/-! Verification development for the meu-cantinho booking engine.

The model is a shallow embedding of the backend controllers:
* `src/backend/src/controllers/payment.ts` — the payment ledger
  (`registerPayment`, `confirmPayment`, `removePayment`,
  `recomputeReservationStatus`);
* `src/unnamed/part_004` (reservation controller variant with conflict
  checking, capacity validation and pricing) — `createReservation`,
  `listReservationsBySpace`, `cancelReservation` and the conflict SQL.

Database rows become list entries; SQL aggregates become structural
recursions over those lists.  Monetary amounts (`numeric` cast to `float8`
in the source) are modelled as exact rationals `ℚ`; timestamps are
modelled in milliseconds: a `date` column is a day index and a `time`
column an offset within the day, so `date + time` in SQL (and
`new Date(...)` in JS) becomes `day * 86400000 + time`.
-/

namespace MeuCantinho

/-- Reservation status enum: `status ∈ {PENDING, CONFIRMED, CANCELLED}`. -/
inductive RStatus
  | PENDING
  | CONFIRMED
  | CANCELLED
deriving DecidableEq

/-- Payment status enum: `status ∈ {PENDING, PAID, CANCELLED, REFUNDED}`. -/
inductive PStatus
  | PENDING
  | PAID
  | CANCELLED
  | REFUNDED
deriving DecidableEq

/-- A row of the `spaces` table (the fields read by the booking engine:
`SELECT id, branch_id, price_per_hour, capacity ... active`). -/
structure Space where
  id : Nat
  branch_id : Nat
  price_per_hour : ℚ
  capacity : Int
  active : Bool
deriving DecidableEq

/-- A row of the `reservations` table (part_004 schema: check-in/check-out
dates with start/end times). Dates are day indices, times are
milliseconds within the day. -/
structure Reservation where
  id : Nat
  space_id : Nat
  branch_id : Nat
  customer_id : Nat
  check_in_date : Int
  check_out_date : Int
  start_time : Int
  end_time : Int
  adults_count : Int
  status : RStatus
  total_amount : ℚ
  deposit_pct : ℚ
  notes : Option String
deriving DecidableEq

/-- A row of the `payments` table. -/
structure Payment where
  id : Nat
  reservation_id : Nat
  amount : ℚ
  method : String
  status : PStatus
  purpose : String
  external_ref : Option String
  paid_at : Option Int
deriving DecidableEq

/-- The database state the controllers read and write. -/
structure DB where
  reservations : List Reservation
  payments : List Payment
  spaces : List Space
deriving DecidableEq

/-- Embeds `SELECT ... FROM reservations WHERE id = $1` (first matching row). -/
def DB.findReservation (db : DB) (rid : Nat) : Option Reservation :=
  db.reservations.find? (fun r => decide (r.id = rid))

/-- Embeds `SELECT ... FROM payments WHERE id = $1` (first matching row). -/
def DB.findPayment (db : DB) (pid : Nat) : Option Payment :=
  db.payments.find? (fun p => decide (p.id = pid))

/-- Embeds `SELECT ... FROM spaces WHERE id = $1 AND active = TRUE`. -/
def DB.findActiveSpace (db : DB) (sid : Nat) : Option Space :=
  db.spaces.find? (fun s => decide (s.id = sid ∧ s.active = true))

/-- Embeds `SELECT id FROM spaces WHERE id = $1` (no active filter; used by
`listReservationsBySpace`). -/
def DB.findSpace (db : DB) (sid : Nat) : Option Space :=
  db.spaces.find? (fun s => decide (s.id = sid))

/-- Embeds `UPDATE reservations SET status = $st WHERE id = $rid`. -/
def setReservationStatus (db : DB) (rid : Nat) (st : RStatus) : DB :=
  { db with
    reservations :=
      db.reservations.map (fun r => if r.id = rid then { r with status := st } else r) }

/-- Embeds `SUM(amount) ... WHERE reservation_id = $1 AND status IN ('PENDING','PAID')`
as a structural recursion over the payment rows. -/
def committedSumL (rid : Nat) : List Payment → ℚ
  | [] => 0
  | p :: ps =>
    (if p.reservation_id = rid ∧ (p.status = PStatus.PENDING ∨ p.status = PStatus.PAID) then
      p.amount
    else 0) + committedSumL rid ps

/-- The committed sum (PENDING + PAID payments) of one reservation,
`payment.ts` lines 103–112. -/
def committedSum (db : DB) (rid : Nat) : ℚ :=
  committedSumL rid db.payments

/-- Embeds `SUM(CASE WHEN p.status = 'PAID' THEN p.amount ELSE 0 END)` over the
payments of one reservation, `payment.ts` lines 31–42. -/
def paidSumL (rid : Nat) : List Payment → ℚ
  | [] => 0
  | p :: ps =>
    (if p.reservation_id = rid ∧ p.status = PStatus.PAID then p.amount else 0) + paidSumL rid ps

/-- The PAID sum of one reservation. -/
def paidSum (db : DB) (rid : Nat) : ℚ :=
  paidSumL rid db.payments

/-- Embeds `recomputeReservationStatus` (`payment.ts` lines 30–63): if
`paidSum ≥ total_amount` and `total_amount > 0`, set the reservation's
status to CONFIRMED; otherwise leave the state untouched. -/
def recomputeReservationStatus (db : DB) (rid : Nat) : DB :=
  match db.findReservation rid with
  | none => db
  | some r =>
    if paidSum db rid ≥ r.total_amount ∧ r.total_amount > 0 then
      setReservationStatus db rid RStatus.CONFIRMED
    else db

/-- Error outcomes of the payment endpoints (the JSON `error` field). -/
inductive PayErr
  | invalid_amount
  | invalid_method
  | reservation_not_found
  | amount_exceeds_remaining (remaining : ℚ)
  | payment_not_found
  | cannot_delete_paid_payment
deriving DecidableEq

/-- Request body of `POST /reservations/:reservationId/payments`. `none`
models an absent (or, for strings, falsy) field. -/
structure RegisterPaymentBody where
  amount : Option ℚ
  method : Option String
  purpose : Option String
  external_ref : Option String
deriving DecidableEq

/-- The row inserted by `registerPayment` (`payment.ts` lines 124–152):
status PENDING, purpose defaulting to DEPOSIT when absent or blank. -/
def newPendingPayment (newId rid : Nat) (a : ℚ) (m : String)
    (body : RegisterPaymentBody) : Payment :=
  { id := newId
    reservation_id := rid
    amount := a
    method := m
    status := PStatus.PENDING
    purpose :=
      match body.purpose with
      | some s => if s.trim = "" then "DEPOSIT" else s.trim
      | none => "DEPOSIT"
    external_ref := body.external_ref
    paid_at := none }

/-- Embeds `registerPayment` (`payment.ts` lines 69–159): validate amount and
method, require the reservation to exist, compute the committed sum and
the remaining balance, reject with `amount_exceeds_remaining` when
`amount > remaining + 0.0001`, otherwise insert a PENDING payment. -/
def registerPayment (db : DB) (rid : Nat) (body : RegisterPaymentBody) (newId : Nat) :
    Except PayErr (DB × Payment) :=
  match body.amount with
  | none => .error PayErr.invalid_amount
  | some a =>
    if a ≤ 0 then .error PayErr.invalid_amount
    else
      match body.method with
      | none => .error PayErr.invalid_method
      | some m =>
        if m = "" then .error PayErr.invalid_method
        else
          match db.findReservation rid with
          | none => .error PayErr.reservation_not_found
          | some r =>
            let remaining := r.total_amount - committedSum db rid
            if a > remaining + 1 / 10000 then
              .error (PayErr.amount_exceeds_remaining remaining)
            else
              let p := newPendingPayment newId rid a m body
              .ok ({ db with payments := db.payments ++ [p] }, p)

/-- The row update performed by `confirmPayment`'s SQL: status PAID,
`paid_at = COALESCE($2, NOW())`, `external_ref = COALESCE($3, external_ref)`. -/
def markPaid (pa : Option Int) (er : Option String) (now : Int) (q : Payment) : Payment :=
  { q with
    status := PStatus.PAID
    paid_at := some (pa.getD now)
    external_ref :=
      match er with
      | some s => some s
      | none => q.external_ref }

/-- Embeds `confirmPayment` (`payment.ts` lines 198–247): require the payment to
exist, mark it PAID, then recompute the reservation status from the
updated payment set. -/
def confirmPayment (db : DB) (pid : Nat) (pa : Option Int) (er : Option String) (now : Int) :
    Except PayErr (DB × Payment) :=
  match db.findPayment pid with
  | none => .error PayErr.payment_not_found
  | some p =>
    let db1 :=
      { db with
        payments := db.payments.map (fun q => if q.id = pid then markPaid pa er now q else q) }
    let p2 := markPaid pa er now p
    let db2 := recomputeReservationStatus db1 p2.reservation_id
    .ok (db2, p2)

/-- Embeds `removePayment` (`payment.ts` lines 253–281): 404 when the payment is
missing, reject PAID payments, otherwise delete the row; no reservation
status recomputation happens on this path. -/
def removePayment (db : DB) (pid : Nat) : Except PayErr DB :=
  match db.findPayment pid with
  | none => .error PayErr.payment_not_found
  | some p =>
    if p.status = PStatus.PAID then .error PayErr.cannot_delete_paid_payment
    else .ok { db with payments := db.payments.filter (fun q => decide (¬q.id = pid)) }

/-- Error outcomes of the reservation read/cancel endpoints. -/
inductive ResErr
  | reservation_not_found
  | space_not_found
deriving DecidableEq

/-- Embeds `cancelReservation` (part_004 lines 260–287): 404 when missing,
otherwise `UPDATE reservations SET status = 'CANCELLED' WHERE id = $1`,
unconditionally on the current status. -/
def cancelReservation (db : DB) (rid : Nat) : Except ResErr DB :=
  match db.findReservation rid with
  | none => .error ResErr.reservation_not_found
  | some _ => .ok (setReservationStatus db rid RStatus.CANCELLED)

/-- Milliseconds in a day: a SQL `date + time` timestamp is
`day * 86400000 + time`. -/
def msPerDay : Int := 86400000

/-- The effective start `check_in_date + start_time` of a reservation. -/
def effStart (r : Reservation) : Int :=
  r.check_in_date * msPerDay + r.start_time

/-- The effective end `check_out_date + end_time` of a reservation. -/
def effEnd (r : Reservation) : Int :=
  r.check_out_date * msPerDay + r.end_time

/-- The conflict query of `createReservation` (part_004 lines 113–135):
a row exists with the same space, status ≠ CANCELLED, and
`existing_start < new_end AND new_start < existing_end`. -/
def hasConflict (db : DB) (sid : Nat) (s e : Int) : Bool :=
  db.reservations.any (fun r =>
    decide (r.space_id = sid ∧ r.status ≠ RStatus.CANCELLED ∧ effStart r < e ∧ s < effEnd r))

/-- Error outcomes of `createReservation` (part_004). -/
inductive CreateErr
  | invalid_customer_id
  | invalid_check_in_date
  | invalid_check_out_date
  | invalid_start_time
  | invalid_end_time
  | invalid_adults_count
  | checkout_before_checkin
  | space_not_found_or_inactive
  | capacity_exceeded (capacity adults_count : Int)
  | invalid_time_range
  | conflicting_reservation
deriving DecidableEq

/-- Request body of `POST /spaces/:spaceId/reservations` (part_004).
`none` models an absent or falsy field. -/
structure CreateReservationBody where
  customer_id : Option Nat
  check_in_date : Option Int
  check_out_date : Option Int
  start_time : Option Int
  end_time : Option Int
  adults_count : Option Int
  deposit_pct : Option ℚ
  notes : Option String
deriving DecidableEq

/-- Embeds `createReservation` (part_004 lines 23–178), with the source's check
order: field presence, `adults_count > 0`, date ordering, active-space
lookup, capacity, time range, pricing
(`diffHours = (end − start) / 3600000` ms, `total = diffHours * price`),
conflict query, and finally the INSERT of a PENDING row. -/
def createReservation (db : DB) (spaceId : Nat) (body : CreateReservationBody) (newId : Nat) :
    Except CreateErr (DB × Reservation) :=
  match body.customer_id with
  | none => .error CreateErr.invalid_customer_id
  | some cid =>
    match body.check_in_date with
    | none => .error CreateErr.invalid_check_in_date
    | some cin =>
      match body.check_out_date with
      | none => .error CreateErr.invalid_check_out_date
      | some cout =>
        match body.start_time with
        | none => .error CreateErr.invalid_start_time
        | some stime =>
          match body.end_time with
          | none => .error CreateErr.invalid_end_time
          | some etime =>
            match body.adults_count with
            | none => .error CreateErr.invalid_adults_count
            | some adults =>
              if adults ≤ 0 then .error CreateErr.invalid_adults_count
              else if cout < cin then .error CreateErr.checkout_before_checkin
              else
                match db.findActiveSpace spaceId with
                | none => .error CreateErr.space_not_found_or_inactive
                | some sp =>
                  if adults > sp.capacity then
                    .error (CreateErr.capacity_exceeded sp.capacity adults)
                  else
                    let start := cin * msPerDay + stime
                    let stop := cout * msPerDay + etime
                    if stop ≤ start then .error CreateErr.invalid_time_range
                    else
                      let diffHours : ℚ := ((stop - start : Int) : ℚ) / (1000 * 60 * 60)
                      let total := diffHours * sp.price_per_hour
                      if hasConflict db spaceId start stop then
                        .error CreateErr.conflicting_reservation
                      else
                        let r : Reservation :=
                          { id := newId
                            space_id := spaceId
                            branch_id := sp.branch_id
                            customer_id := cid
                            check_in_date := cin
                            check_out_date := cout
                            start_time := stime
                            end_time := etime
                            adults_count := adults
                            status := RStatus.PENDING
                            total_amount := total
                            deposit_pct := body.deposit_pct.getD 0
                            notes := body.notes }
                        .ok ({ db with reservations := db.reservations ++ [r] }, r)

/-- The database after a `createReservation` request: the inserted state
on success, the unchanged state on any rejection (every error path in the
source returns before the INSERT). -/
def createReservationDB (db : DB) (spaceId : Nat) (body : CreateReservationBody)
    (newId : Nat) : DB :=
  match createReservation db spaceId body newId with
  | .ok x => x.1
  | .error _ => db

/-- Embeds `ORDER BY check_in_date ASC, start_time ASC` as a Bool order. -/
def reservationLe (a b : Reservation) : Bool :=
  decide (a.check_in_date < b.check_in_date) ||
    (decide (a.check_in_date = b.check_in_date) && decide (a.start_time ≤ b.start_time))

/-- Embeds `listReservationsBySpace` (part_004 lines 213–252): 404 when the
space row is missing, otherwise all reservations of the space — with no
condition on status — optionally filtered by
`$2::date BETWEEN check_in_date AND check_out_date`, sorted by check-in
date then start time. -/
def listReservationsBySpace (db : DB) (sid : Nat) (date : Option Int) :
    Except ResErr (List Reservation) :=
  match db.findSpace sid with
  | none => .error ResErr.space_not_found
  | some _ =>
    let base := db.reservations.filter (fun r => decide (r.space_id = sid))
    let rows :=
      match date with
      | none => base
      | some d => base.filter (fun r => decide (r.check_in_date ≤ d ∧ d ≤ r.check_out_date))
    .ok (rows.mergeSort reservationLe)

/-- One ledger request: register, confirm or remove a payment. -/
inductive LedgerOp
  | register (rid newId : Nat) (body : RegisterPaymentBody)
  | confirm (pid : Nat) (pa : Option Int) (er : Option String) (now : Int)
  | remove (pid : Nat)

/-- The state after one ledger request: the new state on success, the
unchanged state on rejection (every error path returns before a write). -/
def applyLedgerOp (db : DB) : LedgerOp → DB
  | .register rid newId body =>
    match registerPayment db rid body newId with
    | .ok x => x.1
    | .error _ => db
  | .confirm pid pa er now =>
    match confirmPayment db pid pa er now with
    | .ok x => x.1
    | .error _ => db
  | .remove pid =>
    match removePayment db pid with
    | .ok d => d
    | .error _ => db

/-- The state after a sequence of ledger requests. -/
def applyLedgerOps (db : DB) (ops : List LedgerOp) : DB :=
  ops.foldl applyLedgerOp db

/-- Payments as the ledger alone creates them: positive amount, status
PENDING or PAID (`registerPayment` inserts PENDING rows with a positive
amount, `confirmPayment` moves rows to PAID, `removePayment` deletes). -/
def PaymentsWF (db : DB) : Prop :=
  ∀ p ∈ db.payments, 0 < p.amount ∧ (p.status = PStatus.PENDING ∨ p.status = PStatus.PAID)

/-- The ε-relaxed ledger bound: the committed (PENDING + PAID) sum of
every reservation stays within `total_amount + 0.0001`. -/
def LedgerBound (db : DB) : Prop :=
  ∀ rid r, db.findReservation rid = some r →
    committedSum db rid ≤ r.total_amount + 1 / 10000

/-! Concrete instances used by witnesses and counterexamples. Times are
milliseconds within the day (09:00 = 32400000, 11:00 = 39600000,
12:00 = 43200000); 19732 is the day index of 2024-01-10. -/

/-- Scenario space: capacity 10, hourly rate 100. -/
def spW : Space :=
  { id := 1, branch_id := 1, price_per_hour := 100, capacity := 10, active := true }

/-- An existing 09:00–11:00 reservation on space 1 on 2024-01-10. -/
def r0911 : Reservation :=
  { id := 1, space_id := 1, branch_id := 1, customer_id := 1
    check_in_date := 19732, check_out_date := 19732
    start_time := 32400000, end_time := 39600000
    adults_count := 2, status := RStatus.PENDING
    total_amount := 200, deposit_pct := 0, notes := none }

/-- Reservation 1 with total 200 and a registered PENDING payment of 150
(scenario 4 before the second registration). -/
def dbW5 : DB :=
  { reservations := [r0911]
    payments := [{ id := 1, reservation_id := 1, amount := 150, method := "PIX"
                   status := PStatus.PENDING, purpose := "DEPOSIT"
                   external_ref := none, paid_at := none }]
    spaces := [spW] }

/-- The rejected second registration of scenario 4: 60 over a remaining 50. -/
def body60 : RegisterPaymentBody :=
  { amount := some 60, method := some "PIX", purpose := none, external_ref := none }

/-- A database whose payment 7 is PAID (scenario 6). -/
def dbW8 : DB :=
  { reservations := [r0911]
    payments := [{ id := 7, reservation_id := 1, amount := 200, method := "PIX"
                   status := PStatus.PAID, purpose := "DEPOSIT"
                   external_ref := none, paid_at := some 0 }]
    spaces := [spW] }

/-- The PAID payment stored in `dbW8`. -/
def pW8 : Payment :=
  { id := 7, reservation_id := 1, amount := 200, method := "PIX"
    status := PStatus.PAID, purpose := "DEPOSIT", external_ref := none, paid_at := some 0 }

/-- A reservation of total 200 with no payments yet (reservation 1). -/
def dbC2 : DB := { reservations := [r0911], payments := [], spaces := [spW] }

/-- A registration of 200.0001 against a total of 200: inside the ε
tolerance, hence accepted. -/
def bodyC2 : RegisterPaymentBody :=
  { amount := some (2000001 / 10000), method := some "PIX", purpose := none
    external_ref := none }

/-- A registration of 150 against reservation 1. -/
def body150 : RegisterPaymentBody :=
  { amount := some 150, method := some "PIX", purpose := none, external_ref := none }

/-- The 09:00–11:00 reservation after cancellation. -/
def r0911c : Reservation := { r0911 with status := RStatus.CANCELLED }

/-- A CANCELLED reservation of total 200 that still has a PENDING
payment of 200 (reachable: register, then cancel). -/
def dbC3 : DB :=
  { reservations := [r0911c]
    payments := [{ id := 7, reservation_id := 1, amount := 200, method := "PIX"
                   status := PStatus.PENDING, purpose := "DEPOSIT"
                   external_ref := none, paid_at := none }]
    spaces := [spW] }

/-- A PENDING reservation of total 100 with one PENDING payment of 100. -/
def dbW4 : DB :=
  { reservations := [{ id := 1, space_id := 1, branch_id := 1, customer_id := 1
                       check_in_date := 19732, check_out_date := 19732
                       start_time := 32400000, end_time := 39600000
                       adults_count := 2, status := RStatus.PENDING
                       total_amount := 100, deposit_pct := 0, notes := none }]
    payments := [{ id := 7, reservation_id := 1, amount := 100, method := "PIX"
                   status := PStatus.PENDING, purpose := "DEPOSIT"
                   external_ref := none, paid_at := none }]
    spaces := [spW] }

/-- The stored reservation of `dbW4`. -/
def rW4 : Reservation :=
  { id := 1, space_id := 1, branch_id := 1, customer_id := 1
    check_in_date := 19732, check_out_date := 19732
    start_time := 32400000, end_time := 39600000
    adults_count := 2, status := RStatus.PENDING
    total_amount := 100, deposit_pct := 0, notes := none }

/-- The reservation `rW4` after reconciliation confirms it. -/
def rW4c : Reservation := { rW4 with status := RStatus.CONFIRMED }

/-- The payment of `dbW4` after confirmation at time 0. -/
def pW4c : Payment :=
  { id := 7, reservation_id := 1, amount := 100, method := "PIX"
    status := PStatus.PAID, purpose := "DEPOSIT", external_ref := none, paid_at := some 0 }

/-- The state `dbW4` after `confirmPayment` on payment 7: payment PAID,
reservation CONFIRMED. -/
def dbW4c : DB := { reservations := [rW4c], payments := [pW4c], spaces := [spW] }

/-- An empty database holding only the scenario space. -/
def dbW6 : DB := { reservations := [], payments := [], spaces := [spW] }

/-- Scenario 1 request: book space 1 on 2024-01-10 from 09:00 to 11:00
for 2 adults. -/
def bodyW6 : CreateReservationBody :=
  { customer_id := some 1, check_in_date := some 19732, check_out_date := some 19732
    start_time := some 32400000, end_time := some 39600000
    adults_count := some 2, deposit_pct := none, notes := none }

/-- A request for 11 adults against a capacity of 10. -/
def bodyC7 : CreateReservationBody :=
  { customer_id := some 1, check_in_date := some 19732, check_out_date := some 19732
    start_time := some 32400000, end_time := some 39600000
    adults_count := some 11, deposit_pct := none, notes := none }

/-- A CANCELLED reservation on space 1 (for the listing claim). -/
def rC9 : Reservation :=
  { id := 3, space_id := 1, branch_id := 1, customer_id := 1
    check_in_date := 19732, check_out_date := 19733
    start_time := 32400000, end_time := 39600000
    adults_count := 2, status := RStatus.CANCELLED
    total_amount := 200, deposit_pct := 0, notes := none }

/-- A database whose only reservation on space 1 is CANCELLED. -/
def dbW9 : DB := { reservations := [rC9], payments := [], spaces := [spW] }

/-!  Claim theorems. -/

/-- C1: the conflict query reports a conflict exactly when some existing
reservation on the same space with status ≠ CANCELLED satisfies the
half-open overlap formula `aStart < bEnd ∧ bStart < aEnd` on the
effective `[check_in_date+start_time, check_out_date+end_time)`
intervals; reservations that are CANCELLED or on other spaces are never
counted (they falsify the matching condition), and an interval that
merely touches the candidate at a boundary never produces a conflict. -/
theorem C1_conflict_checker (db : DB) (sid : Nat) (s e : Int) :
    (hasConflict db sid s e = true ↔
      ∃ r ∈ db.reservations,
        r.space_id = sid ∧ r.status ≠ RStatus.CANCELLED ∧ effStart r < e ∧ s < effEnd r)
    ∧ (∀ (r : Reservation) (ps : List Payment) (ss : List Space),
        effEnd r = s ∨ effStart r = e → hasConflict ⟨[r], ps, ss⟩ sid s e = false) := by
  constructor
  · simp [hasConflict, List.any_eq_true, decide_eq_true_eq]
  · intro r ps ss h
    simp only [hasConflict, List.any_cons, List.any_nil, Bool.or_false,
      decide_eq_false_iff_not]
    rintro ⟨-, -, h1, h2⟩
    rcases h with h | h <;> omega

/-- Witness for C1: a candidate 11:00–12:00 slot against an existing
09:00–11:00 reservation (back-to-back, touching at 11:00) is not a
conflict. -/
theorem C1_conflict_checker_witness :
    hasConflict ⟨[r0911], [], []⟩ 1 (19732 * msPerDay + 39600000)
      (19732 * msPerDay + 43200000) = false :=
  (C1_conflict_checker ⟨[r0911], [], []⟩ 1 (19732 * msPerDay + 39600000)
    (19732 * msPerDay + 43200000)).2 r0911 [] [] (Or.inl rfl)

/-- Outcome of `registerPayment` on an absent or non-positive amount. -/
theorem registerPayment_invalid_amount (db : DB) (rid newId : Nat)
    (body : RegisterPaymentBody)
    (h : body.amount = none ∨ ∃ a, body.amount = some a ∧ a ≤ 0) :
    registerPayment db rid body newId = .error PayErr.invalid_amount := by
  unfold registerPayment
  rcases h with h | ⟨a, h, ha⟩
  · rw [h]
  · rw [h]
    simp only [if_pos ha]

/-- Outcome of `registerPayment` on an absent or empty method. -/
theorem registerPayment_invalid_method (db : DB) (rid newId : Nat)
    (body : RegisterPaymentBody) (a : ℚ)
    (ham : body.amount = some a) (hpos : ¬a ≤ 0)
    (h : body.method = none ∨ body.method = some "") :
    registerPayment db rid body newId = .error PayErr.invalid_method := by
  unfold registerPayment
  rw [ham]
  rcases h with h | h <;> rw [h] <;> simp [if_neg hpos]

/-- Outcome of `registerPayment` on a missing reservation. -/
theorem registerPayment_no_reservation (db : DB) (rid newId : Nat)
    (body : RegisterPaymentBody) (a : ℚ) (m : String)
    (ham : body.amount = some a) (hpos : ¬a ≤ 0)
    (hm : body.method = some m) (hm0 : ¬m = "")
    (hr : db.findReservation rid = none) :
    registerPayment db rid body newId = .error PayErr.reservation_not_found := by
  unfold registerPayment
  rw [ham, hm, hr]
  simp only [if_neg hpos, if_neg hm0]

/-- Outcome of `registerPayment` when the amount exceeds the remaining balance plus
the 0.0001 rounding delta. -/
theorem registerPayment_reject (db : DB) (rid newId : Nat) (body : RegisterPaymentBody)
    (r : Reservation) (a : ℚ) (m : String)
    (hr : db.findReservation rid = some r) (ham : body.amount = some a) (hpos : 0 < a)
    (hm : body.method = some m) (hm0 : ¬m = "")
    (hgt : a > r.total_amount - committedSum db rid + 1 / 10000) :
    registerPayment db rid body newId =
      .error (PayErr.amount_exceeds_remaining (r.total_amount - committedSum db rid)) := by
  have hnle : ¬a ≤ 0 := not_le.mpr hpos
  unfold registerPayment
  rw [ham, hm, hr]
  simp only [if_neg hnle, if_neg hm0, if_pos hgt]

/-- Outcome of `registerPayment` when the amount fits the remaining balance: the
PENDING row is appended and nothing else changes. -/
theorem registerPayment_accept (db : DB) (rid newId : Nat) (body : RegisterPaymentBody)
    (r : Reservation) (a : ℚ) (m : String)
    (hr : db.findReservation rid = some r) (ham : body.amount = some a) (hpos : 0 < a)
    (hm : body.method = some m) (hm0 : ¬m = "")
    (hle : ¬a > r.total_amount - committedSum db rid + 1 / 10000) :
    registerPayment db rid body newId =
      .ok ({ db with payments := db.payments ++ [newPendingPayment newId rid a m body] },
        newPendingPayment newId rid a m body) := by
  have hnle : ¬a ≤ 0 := not_le.mpr hpos
  unfold registerPayment
  rw [ham, hm, hr]
  simp only [if_neg hnle, if_neg hm0, if_neg hle]

/-- C5: for a `registerPayment` call on an existing reservation with a
positive amount (and a well-formed method), the ledger computes
`remaining = total_amount − committedSum` over the PENDING and PAID
payments of that reservation, rejects with `amount_exceeds_remaining`
carrying that numeric remainder exactly when
`amount > remaining + 0.0001`, and otherwise appends a single PENDING
payment of that amount and changes nothing else of the state. -/
theorem C5_register_payment_ledger (db : DB) (rid newId : Nat)
    (body : RegisterPaymentBody) (r : Reservation) (a : ℚ) (m : String)
    (hr : db.findReservation rid = some r)
    (ham : body.amount = some a) (hpos : 0 < a)
    (hm : body.method = some m) (hm0 : ¬m = "") :
    (a > r.total_amount - committedSum db rid + 1 / 10000 →
      registerPayment db rid body newId =
        .error (PayErr.amount_exceeds_remaining (r.total_amount - committedSum db rid)))
    ∧ (a ≤ r.total_amount - committedSum db rid + 1 / 10000 →
      registerPayment db rid body newId =
        .ok ({ db with payments := db.payments ++ [newPendingPayment newId rid a m body] },
          newPendingPayment newId rid a m body)
      ∧ (newPendingPayment newId rid a m body).status = PStatus.PENDING
      ∧ (newPendingPayment newId rid a m body).amount = a
      ∧ (newPendingPayment newId rid a m body).reservation_id = rid) := by
  constructor
  · intro hgt
    exact registerPayment_reject db rid newId body r a m hr ham hpos hm hm0 hgt
  · intro hle
    exact ⟨registerPayment_accept db rid newId body r a m hr ham hpos hm hm0
      (not_lt.mpr hle), rfl, rfl, rfl⟩

/-- Witness for C5 (scenario 4): reservation total 200 with a committed
PENDING payment of 150; registering 60 is rejected with remaining 50. -/
theorem C5_register_payment_ledger_witness :
    registerPayment dbW5 1 body60 2 = .error (PayErr.amount_exceeds_remaining 50) := by
  have h := (C5_register_payment_ledger dbW5 1 2 body60 r0911 60 "PIX" rfl rfl
    (by norm_num) rfl (by decide)).1 (by with_unfolding_all decide)
  have e : r0911.total_amount - committedSum dbW5 1 = 50 := by with_unfolding_all decide
  rw [e] at h
  exact h

/-- Splitting the committed sum of a payment list between the rows that a
`DELETE ... WHERE id = $1` removes and those it keeps. -/
theorem committedSumL_remove_split (rid pid : Nat) (l : List Payment) :
    committedSumL rid (l.filter (fun q => decide (¬q.id = pid)))
      + committedSumL rid (l.filter (fun q => decide (q.id = pid)))
      = committedSumL rid l := by
  induction l with
  | nil => simp [committedSumL]
  | cons p ps ih =>
    by_cases h : p.id = pid
    · rw [List.filter_cons, List.filter_cons, if_neg (by simpa using h),
        if_pos (by simpa using h)]
      simp only [committedSumL]
      linarith [ih]
    · rw [List.filter_cons, List.filter_cons, if_pos (by simpa using h),
        if_neg (by simpa using h)]
      simp only [committedSumL]
      linarith [ih]

/-- C8: `removePayment` fails with `payment_not_found` when the payment
is missing, fails with `cannot_delete_paid_payment` (leaving all state
unchanged, since no write occurs on an error path) when its status is
PAID, and otherwise deletes the payment row without touching the
reservations — so the reservation's status is unchanged and the
committed sum splits as the kept rows plus the deleted rows. -/
theorem C8_remove_payment (db : DB) (pid : Nat) :
    (db.findPayment pid = none → removePayment db pid = .error PayErr.payment_not_found)
    ∧ (∀ p, db.findPayment pid = some p → p.status = PStatus.PAID →
        removePayment db pid = .error PayErr.cannot_delete_paid_payment)
    ∧ (∀ p, db.findPayment pid = some p → ¬p.status = PStatus.PAID →
        removePayment db pid =
          .ok { db with payments := db.payments.filter (fun q => decide (¬q.id = pid)) }
        ∧ ({ db with payments := db.payments.filter (fun q => decide (¬q.id = pid)) } : DB).reservations
            = db.reservations
        ∧ ∀ rid,
            committedSumL rid (db.payments.filter (fun q => decide (¬q.id = pid)))
              + committedSumL rid (db.payments.filter (fun q => decide (q.id = pid)))
              = committedSum db rid) := by
  refine ⟨fun hnone => ?_, fun p hp hpaid => ?_, fun p hp hnotpaid => ?_⟩
  · unfold removePayment
    rw [hnone]
  · simp only [removePayment, hp, if_pos hpaid]
  · simp only [removePayment, hp, if_neg hnotpaid]
    exact ⟨trivial, trivial, fun rid => committedSumL_remove_split rid pid db.payments⟩

/-- Witness for C8 (scenario 6): deleting the PAID payment 7 is rejected
with `cannot_delete_paid_payment`. -/
theorem C8_remove_payment_witness :
    removePayment dbW8 7 = .error PayErr.cannot_delete_paid_payment :=
  (C8_remove_payment dbW8 7).2.1 pW8 rfl rfl

/-- Looking up a reservation after a status update yields the stored row
with at most its status rewritten; every other field survives. -/
theorem findReservation_setStatus (db : DB) (rid : Nat) (st : RStatus) (rid' : Nat) :
    (setReservationStatus db rid st).findReservation rid' =
      (db.findReservation rid').map
        (fun r => if r.id = rid then { r with status := st } else r) := by
  unfold setReservationStatus DB.findReservation
  have hpred :
      ((fun r : Reservation => decide (r.id = rid')) ∘
        (fun r => if r.id = rid then { r with status := st } else r)) =
      fun r : Reservation => decide (r.id = rid') := by
    funext r
    by_cases h : r.id = rid <;> simp [h]
  rw [List.find?_map, hpred]

/-- C10: `registerPayment` reads only the reservation's existence and
`total_amount`, never its status: running it after any rewrite of the
reservation's status yields exactly the same outcome — the same error,
or the same PENDING payment appended — modulo that status rewrite
itself. In particular a CANCELLED (or CONFIRMED) reservation accepts a
payment within the remaining balance exactly as a PENDING one does. -/
theorem C10_register_payment_ignores_status (db : DB) (rid newId : Nat)
    (body : RegisterPaymentBody) (st : RStatus) :
    registerPayment (setReservationStatus db rid st) rid body newId =
      (registerPayment db rid body newId).map
        (fun x => (setReservationStatus x.1 rid st, x.2)) := by
  set db2 := setReservationStatus db rid st with hdb2
  cases hba : body.amount with
  | none =>
    rw [registerPayment_invalid_amount db rid newId body (Or.inl hba),
      registerPayment_invalid_amount db2 rid newId body (Or.inl hba)]
    rfl
  | some a =>
    by_cases ha : a ≤ 0
    · rw [registerPayment_invalid_amount db rid newId body (Or.inr ⟨a, hba, ha⟩),
        registerPayment_invalid_amount db2 rid newId body (Or.inr ⟨a, hba, ha⟩)]
      rfl
    · cases hbm : body.method with
      | none =>
        rw [registerPayment_invalid_method db rid newId body a hba ha (Or.inl hbm),
          registerPayment_invalid_method db2 rid newId body a hba ha (Or.inl hbm)]
        rfl
      | some m =>
        by_cases hm : m = ""
        · subst hm
          rw [registerPayment_invalid_method db rid newId body a hba ha (Or.inr hbm),
            registerPayment_invalid_method db2 rid newId body a hba ha (Or.inr hbm)]
          rfl
        · cases hfr : db.findReservation rid with
          | none =>
            have hfr2 : db2.findReservation rid = none := by
              rw [hdb2, findReservation_setStatus, hfr]
              rfl
            rw [registerPayment_no_reservation db rid newId body a m hba ha hbm hm hfr,
              registerPayment_no_reservation db2 rid newId body a m hba ha hbm hm hfr2]
            rfl
          | some r =>
            have hid : r.id = rid := by
              simpa using List.find?_some hfr
            have hfr2 : db2.findReservation rid = some { r with status := st } := by
              rw [hdb2, findReservation_setStatus, hfr]
              simp [hid]
            have hpos : 0 < a := not_le.mp ha
            by_cases hgt : a > r.total_amount - committedSum db rid + 1 / 10000
            · have hgt2 : a > ({ r with status := st } : Reservation).total_amount -
                  committedSum db2 rid + 1 / 10000 := hgt
              rw [registerPayment_reject db rid newId body r a m hfr hba hpos hbm hm hgt,
                registerPayment_reject db2 rid newId body { r with status := st } a m
                  hfr2 hba hpos hbm hm hgt2]
              rfl
            · have hgt2 : ¬a > ({ r with status := st } : Reservation).total_amount -
                  committedSum db2 rid + 1 / 10000 := hgt
              rw [registerPayment_accept db rid newId body r a m hfr hba hpos hbm hm hgt,
                registerPayment_accept db2 rid newId body { r with status := st } a m
                  hfr2 hba hpos hbm hm hgt2]
              rfl

/-- C9: `listReservationsBySpace` filters only on the space (and the
optional date window `check_in_date ≤ d ≤ check_out_date`): membership
in its result never depends on the reservation's status, so CANCELLED
and CONFIRMED reservations are listed alike, with or without the date
filter. -/
theorem C9_list_has_no_status_filter (db : DB) (sid : Nat) (r : Reservation) (sp : Space)
    (hsp : db.findSpace sid = some sp) :
    (∀ out, listReservationsBySpace db sid none = .ok out →
      (r ∈ out ↔ r ∈ db.reservations ∧ r.space_id = sid))
    ∧ (∀ d out, listReservationsBySpace db sid (some d) = .ok out →
      (r ∈ out ↔ r ∈ db.reservations ∧ r.space_id = sid ∧
        r.check_in_date ≤ d ∧ d ≤ r.check_out_date)) := by
  constructor
  · intro out hout
    unfold listReservationsBySpace at hout
    rw [hsp] at hout
    have hout2 := Except.ok.inj hout
    rw [← hout2]
    simp [List.mem_filter]
  · intro d out hout
    unfold listReservationsBySpace at hout
    rw [hsp] at hout
    have hout2 := Except.ok.inj hout
    rw [← hout2]
    simp only [List.mem_mergeSort, List.mem_filter, decide_eq_true_eq]
    constructor
    · rintro ⟨⟨hmem, hsid⟩, hd1, hd2⟩
      exact ⟨hmem, hsid, hd1, hd2⟩
    · rintro ⟨hmem, hsid, hd1, hd2⟩
      exact ⟨⟨hmem, hsid⟩, hd1, hd2⟩

/-- Witness for C9: the CANCELLED reservation `rC9` appears in the
listing of its space. -/
theorem C9_list_has_no_status_filter_witness :
    rC9 ∈ ([rC9].mergeSort reservationLe) :=
  ((C9_list_has_no_status_filter dbW9 1 rC9 spW rfl).1
    ([rC9].mergeSort reservationLe) rfl).mpr
    ⟨List.mem_cons_self rC9 [], rfl⟩

/-- C7: on the creation path carrying an occupant count (part_004's
`createReservation`), a request whose `adults_count` passes the earlier
field checks but exceeds the space's capacity is rejected with
`capacity_exceeded` reporting both the capacity limit and the requested
count, and the database is left unchanged. -/
theorem C7_capacity_validation (db : DB) (sid newId : Nat) (body : CreateReservationBody)
    (cid : Nat) (cin cout stime etime adults : Int) (sp : Space)
    (hc : body.customer_id = some cid) (h1 : body.check_in_date = some cin)
    (h2 : body.check_out_date = some cout) (h3 : body.start_time = some stime)
    (h4 : body.end_time = some etime) (h5 : body.adults_count = some adults)
    (hpos : ¬adults ≤ 0) (hord : ¬cout < cin)
    (hsp : db.findActiveSpace sid = some sp)
    (hcap : adults > sp.capacity) :
    createReservation db sid body newId =
      .error (CreateErr.capacity_exceeded sp.capacity adults)
    ∧ createReservationDB db sid body newId = db := by
  have herr : createReservation db sid body newId =
      .error (CreateErr.capacity_exceeded sp.capacity adults) := by
    unfold createReservation
    rw [hc, h1, h2, h3, h4, h5]
    simp only [if_neg hpos, if_neg hord, hsp, if_pos hcap]
  refine ⟨herr, ?_⟩
  unfold createReservationDB
  rw [herr]

/-- Witness for C7: 11 adults against capacity 10 is rejected with
`capacity_exceeded 10 11` and no write happens. -/
theorem C7_capacity_validation_witness :
    createReservation dbW6 1 bodyC7 9 = .error (CreateErr.capacity_exceeded 10 11)
    ∧ createReservationDB dbW6 1 bodyC7 9 = dbW6 :=
  C7_capacity_validation dbW6 1 9 bodyC7 1 19732 19732 32400000 39600000 11 spW
    rfl rfl rfl rfl rfl rfl (by decide) (by decide) rfl (by decide)

/-- C6: on the pricing path (part_004's `createReservation`), a request
passing all validations books a PENDING reservation whose
`total_amount` is exactly the unrounded duration
`((check_out+end_time) − (check_in+start_time))` in hours times the
space's current hourly rate. -/
theorem C6_pricing (db : DB) (sid newId : Nat) (body : CreateReservationBody)
    (cid : Nat) (cin cout stime etime adults : Int) (sp : Space)
    (hc : body.customer_id = some cid) (h1 : body.check_in_date = some cin)
    (h2 : body.check_out_date = some cout) (h3 : body.start_time = some stime)
    (h4 : body.end_time = some etime) (h5 : body.adults_count = some adults)
    (hpos : ¬adults ≤ 0) (hord : ¬cout < cin)
    (hsp : db.findActiveSpace sid = some sp)
    (hcap : ¬adults > sp.capacity)
    (htime : ¬cout * msPerDay + etime ≤ cin * msPerDay + stime)
    (hconf : hasConflict db sid (cin * msPerDay + stime) (cout * msPerDay + etime) = false) :
    ∃ r, createReservation db sid body newId =
        .ok ({ db with reservations := db.reservations ++ [r] }, r)
      ∧ r.total_amount =
          ((cout * msPerDay + etime - (cin * msPerDay + stime) : Int) : ℚ) / (1000 * 60 * 60)
            * sp.price_per_hour
      ∧ r.status = RStatus.PENDING
      ∧ effStart r = cin * msPerDay + stime
      ∧ effEnd r = cout * msPerDay + etime := by
  refine ⟨{ id := newId, space_id := sid, branch_id := sp.branch_id, customer_id := cid
            check_in_date := cin, check_out_date := cout
            start_time := stime, end_time := etime, adults_count := adults
            status := RStatus.PENDING
            total_amount :=
              ((cout * msPerDay + etime - (cin * msPerDay + stime) : Int) : ℚ)
                / (1000 * 60 * 60) * sp.price_per_hour
            deposit_pct := body.deposit_pct.getD 0, notes := body.notes },
    ?_, rfl, rfl, rfl, rfl⟩
  unfold createReservation
  rw [hc, h1, h2, h3, h4, h5]
  simp only [if_neg hpos, if_neg hord, hsp, if_neg hcap, if_neg htime, hconf]
  rfl

/-- Unfolding `recomputeReservationStatus` when the reservation row exists. -/
theorem recompute_eq (d : DB) (rid : Nat) (r : Reservation)
    (h : d.findReservation rid = some r) :
    recomputeReservationStatus d rid =
      if paidSum d rid ≥ r.total_amount ∧ r.total_amount > 0 then
        setReservationStatus d rid RStatus.CONFIRMED
      else d := by
  unfold recomputeReservationStatus
  rw [h]

/-- The function `recomputeReservationStatus` never touches the payment rows. -/
theorem recompute_payments (d : DB) (rid : Nat) :
    (recomputeReservationStatus d rid).payments = d.payments := by
  unfold recomputeReservationStatus
  split
  · rfl
  · split <;> rfl

/-- Every reservation visible after `recomputeReservationStatus` was
already stored, with the same `total_amount`. -/
theorem recompute_total (d : DB) (rid rid' : Nat) (r' : Reservation)
    (h : (recomputeReservationStatus d rid).findReservation rid' = some r') :
    ∃ r0, d.findReservation rid' = some r0 ∧ r0.total_amount = r'.total_amount := by
  cases hf : d.findReservation rid with
  | none =>
    unfold recomputeReservationStatus at h
    rw [hf] at h
    exact ⟨r', h, rfl⟩
  | some r =>
    rw [recompute_eq d rid r hf] at h
    by_cases hc : paidSum d rid ≥ r.total_amount ∧ r.total_amount > 0
    · rw [if_pos hc, findReservation_setStatus] at h
      cases h0 : d.findReservation rid' with
      | none =>
        rw [h0] at h
        simp at h
      | some r0 =>
        rw [h0] at h
        have hg := Option.some.inj h
        refine ⟨r0, rfl, ?_⟩
        rw [← hg]
        by_cases hid : r0.id = rid
        · simp [hid]
        · simp [hid]
    · rw [if_neg hc] at h
      exact ⟨r', h, rfl⟩

/-- C4: a successful `confirmPayment` returns the payment with status
PAID, leaves the reservation's `total_amount` untouched, and recomputes
the reservation's status from the updated payment set: a reservation not
yet CONFIRMED becomes CONFIRMED exactly when the PAID sum reaches a
positive `total_amount`, and a reservation already CONFIRMED is never
reverted by this path. -/
theorem C4_confirm_reconciliation (db : DB) (pid : Nat) (pa : Option Int)
    (er : Option String) (now : Int) (db' : DB) (p' : Payment)
    (h : confirmPayment db pid pa er now = .ok (db', p'))
    (r r' : Reservation)
    (hr : db.findReservation p'.reservation_id = some r)
    (hr' : db'.findReservation p'.reservation_id = some r') :
    p'.status = PStatus.PAID
    ∧ r'.total_amount = r.total_amount
    ∧ (r.status = RStatus.CONFIRMED → r'.status = RStatus.CONFIRMED)
    ∧ (¬r.status = RStatus.CONFIRMED →
        (r'.status = RStatus.CONFIRMED ↔
          paidSum db' p'.reservation_id ≥ r.total_amount ∧ r.total_amount > 0)) := by
  unfold confirmPayment at h
  cases hfp : db.findPayment pid with
  | none =>
    rw [hfp] at h
    exact Except.noConfusion h
  | some p =>
    rw [hfp] at h
    have hinj := Except.ok.inj h
    injection hinj with hdb hp
    subst hp
    subst hdb
    set rid := (markPaid pa er now p).reservation_id
    set db1 : DB := { db with
      payments := db.payments.map (fun (q : Payment) => if q.id = pid then markPaid pa er now q else q) }
      with hdb1
    have hfind1 : db1.findReservation rid = some r := hr
    have hidr : r.id = rid := by simpa using List.find?_some hr
    rw [recompute_eq db1 rid r hfind1] at hr'
    by_cases hcond : paidSum db1 rid ≥ r.total_amount ∧ r.total_amount > 0
    · rw [if_pos hcond, findReservation_setStatus, hfind1] at hr'
      have hg0 := Option.some.inj hr'
      have hg : ({ r with status := RStatus.CONFIRMED } : Reservation) = r' := by
        simpa [hidr] using hg0
      refine ⟨rfl, ?_, ?_, ?_⟩
      · rw [← hg]
      · intro _
        rw [← hg]
      · intro _
        rw [recompute_eq db1 rid r hfind1, if_pos hcond, ← hg]
        exact ⟨fun _ => hcond, fun _ => rfl⟩
    · rw [if_neg hcond, hfind1] at hr'
      have hg := Option.some.inj hr'
      refine ⟨rfl, ?_, ?_, ?_⟩
      · rw [← hg]
      · intro hcs
        rw [← hg]
        exact hcs
      · intro hnc
        rw [recompute_eq db1 rid r hfind1, if_neg hcond, ← hg]
        exact ⟨fun hcs => absurd hcs hnc, fun hc2 => absurd hc2 hcond⟩

/-- Witness for C6 (scenario 1): booking 09:00–11:00 on 2024-01-10 at
hourly rate 100 yields total 200 with status PENDING. -/
theorem C6_pricing_witness :
    ∃ r, createReservation dbW6 1 bodyW6 9 =
        .ok ({ dbW6 with reservations := dbW6.reservations ++ [r] }, r)
      ∧ r.total_amount = 200 ∧ r.status = RStatus.PENDING := by
  obtain ⟨r, hok, htot, hst, -, -⟩ :=
    C6_pricing dbW6 1 9 bodyW6 1 19732 19732 32400000 39600000 2 spW
      rfl rfl rfl rfl rfl rfl (by decide) (by decide) rfl (by decide)
      (by decide) rfl
  exact ⟨r, hok, htot.trans (by with_unfolding_all decide), hst⟩

/-- Witness for C4: confirming the payment of 100 against a PENDING
reservation of total 100 yields a PAID payment and a CONFIRMED
reservation. -/
theorem C4_confirm_reconciliation_witness :
    pW4c.status = PStatus.PAID
    ∧ rW4c.total_amount = rW4.total_amount
    ∧ (rW4.status = RStatus.CONFIRMED → rW4c.status = RStatus.CONFIRMED)
    ∧ (¬rW4.status = RStatus.CONFIRMED →
        (rW4c.status = RStatus.CONFIRMED ↔
          paidSum dbW4c pW4c.reservation_id ≥ rW4.total_amount ∧ rW4.total_amount > 0)) :=
  C4_confirm_reconciliation dbW4 7 none none 0 dbW4c pW4c (by with_unfolding_all rfl)
    rW4 rW4c rfl rfl

/-- C3 is violated by the code: `dbC3` is reachable (create the
reservation, register a payment of the full amount, cancel), its
reservation 1 is CANCELLED, yet confirming its PENDING payment runs the
unguarded status recomputation of `recomputeReservationStatus`, which
flips the CANCELLED reservation straight to CONFIRMED. -/
theorem C3_cancel_not_terminal :
    cancelReservation { reservations := [r0911], payments := dbC3.payments, spaces := [spW] } 1 =
      .ok dbC3
    ∧ (dbC3.findReservation 1).map Reservation.status = some RStatus.CANCELLED
    ∧ (confirmPayment dbC3 7 none none 0).map
        (fun x => (x.1.findReservation 1).map Reservation.status) =
      .ok (some RStatus.CONFIRMED) := by
  refine ⟨rfl, rfl, ?_⟩
  with_unfolding_all rfl

/-- The sum `committedSumL` distributes over list append. -/
theorem committedSumL_append (rid : Nat) (l1 l2 : List Payment) :
    committedSumL rid (l1 ++ l2) = committedSumL rid l1 + committedSumL rid l2 := by
  induction l1 with
  | nil => simp [committedSumL]
  | cons p ps ih =>
    rw [List.cons_append]
    simp only [committedSumL]
    rw [ih]
    ring

/-- The sum `committedSumL` over nonnegative amounts is nonnegative. -/
theorem committedSumL_nonneg (rid : Nat) (l : List Payment)
    (h : ∀ p ∈ l, 0 ≤ p.amount) : 0 ≤ committedSumL rid l := by
  induction l with
  | nil => simp [committedSumL]
  | cons p ps ih =>
    have h1 := h p (List.mem_cons_self p ps)
    have h2 : 0 ≤ committedSumL rid ps := ih fun q hq => h q (List.mem_cons_of_mem p hq)
    simp only [committedSumL]
    split
    · linarith
    · linarith

/-- Marking one payment PAID preserves the committed sum when every
payment already counts as committed (status PENDING or PAID). -/
theorem committedSumL_markPaid (rid pid : Nat) (pa : Option Int) (er : Option String)
    (now : Int) (l : List Payment)
    (hwf : ∀ p ∈ l, p.status = PStatus.PENDING ∨ p.status = PStatus.PAID) :
    committedSumL rid (l.map (fun q => if q.id = pid then markPaid pa er now q else q))
      = committedSumL rid l := by
  induction l with
  | nil => rfl
  | cons p ps ih =>
    have hps := ih fun q hq => hwf q (List.mem_cons_of_mem p hq)
    have hp := hwf p (List.mem_cons_self p ps)
    simp only [List.map_cons, committedSumL, hps]
    congr 1
    by_cases hid : p.id = pid
    · rw [if_pos hid]
      by_cases hrr : p.reservation_id = rid
      · rw [if_pos ⟨hrr, Or.inr rfl⟩, if_pos ⟨hrr, hp⟩]
        rfl
      · rw [if_neg fun hc => hrr hc.1, if_neg fun hc => hrr hc.1]
    · rw [if_neg hid]

/-- One ledger request preserves payment well-formedness and the
ε-relaxed ledger bound. -/
theorem applyLedgerOp_inv (db : DB) (op : LedgerOp)
    (hwf : PaymentsWF db) (hb : LedgerBound db) :
    PaymentsWF (applyLedgerOp db op) ∧ LedgerBound (applyLedgerOp db op) := by
  cases op with
  | register rid newId body =>
    cases hba : body.amount with
    | none =>
      have he := registerPayment_invalid_amount db rid newId body (Or.inl hba)
      simp only [applyLedgerOp, he]
      exact ⟨hwf, hb⟩
    | some a =>
      by_cases ha : a ≤ 0
      · have he := registerPayment_invalid_amount db rid newId body (Or.inr ⟨a, hba, ha⟩)
        simp only [applyLedgerOp, he]
        exact ⟨hwf, hb⟩
      · cases hbm : body.method with
        | none =>
          have he := registerPayment_invalid_method db rid newId body a hba ha (Or.inl hbm)
          simp only [applyLedgerOp, he]
          exact ⟨hwf, hb⟩
        | some m =>
          by_cases hm : m = ""
          · subst hm
            have he := registerPayment_invalid_method db rid newId body a hba ha (Or.inr hbm)
            simp only [applyLedgerOp, he]
            exact ⟨hwf, hb⟩
          · cases hfr : db.findReservation rid with
            | none =>
              have he := registerPayment_no_reservation db rid newId body a m hba ha hbm hm hfr
              simp only [applyLedgerOp, he]
              exact ⟨hwf, hb⟩
            | some r =>
              have hpos : 0 < a := not_le.mp ha
              by_cases hgt : a > r.total_amount - committedSum db rid + 1 / 10000
              · have he := registerPayment_reject db rid newId body r a m hfr hba hpos hbm hm hgt
                simp only [applyLedgerOp, he]
                exact ⟨hwf, hb⟩
              · have he := registerPayment_accept db rid newId body r a m hfr hba hpos hbm hm hgt
                simp only [applyLedgerOp, he]
                constructor
                · intro q hq
                  rcases List.mem_append.mp hq with hq | hq
                  · exact hwf q hq
                  · rw [List.mem_singleton.mp hq]
                    exact ⟨hpos, Or.inl rfl⟩
                · intro rid' r' hr'
                  have hr'' : db.findReservation rid' = some r' := hr'
                  have hbase := hb rid' r' hr''
                  have hsum : committedSumL rid' (db.payments ++ [newPendingPayment newId rid a m body])
                      = committedSum db rid' + committedSumL rid' [newPendingPayment newId rid a m body] :=
                    committedSumL_append rid' db.payments _
                  show committedSumL rid' (db.payments ++ [newPendingPayment newId rid a m body])
                      ≤ r'.total_amount + 1 / 10000
                  rw [hsum]
                  by_cases hrr : rid = rid'
                  · subst hrr
                    rw [hfr] at hr''
                    have hrr' := Option.some.inj hr''
                    have hone : committedSumL rid [newPendingPayment newId rid a m body] = a := by
                      simp [committedSumL, newPendingPayment]
                    rw [hone, ← hrr']
                    have hle := not_lt.mp hgt
                    linarith
                  · have hzero : committedSumL rid' [newPendingPayment newId rid a m body] = 0 := by
                      simp [committedSumL, newPendingPayment]
                      intro hc
                      exact absurd hc hrr
                    rw [hzero]
                    linarith
  | confirm pid pa er now =>
    cases hfp : db.findPayment pid with
    | none =>
      have he : confirmPayment db pid pa er now = .error PayErr.payment_not_found := by
        unfold confirmPayment
        rw [hfp]
      simp only [applyLedgerOp, he]
      exact ⟨hwf, hb⟩
    | some p =>
      have he : confirmPayment db pid pa er now =
          .ok (recomputeReservationStatus
                { db with payments := db.payments.map (fun (q : Payment) => if q.id = pid then markPaid pa er now q else q) }
                (markPaid pa er now p).reservation_id,
              markPaid pa er now p) := by
        unfold confirmPayment
        rw [hfp]
      simp only [applyLedgerOp, he]
      set db1 : DB := { db with payments := db.payments.map (fun (q : Payment) => if q.id = pid then markPaid pa er now q else q) } with hdb1
      set rid0 := (markPaid pa er now p).reservation_id
      have hwf1 : PaymentsWF db1 := by
        intro q hq
        rw [hdb1] at hq
        obtain ⟨q0, hq0, hfq⟩ := List.mem_map.mp hq
        rw [← hfq]
        by_cases hid : q0.id = pid
        · simp only [if_pos hid]
          exact ⟨(hwf q0 hq0).1, Or.inr rfl⟩
        · simp only [if_neg hid]
          exact hwf q0 hq0
      have hpay2 : (recomputeReservationStatus db1 rid0).payments = db1.payments :=
        recompute_payments db1 rid0
      constructor
      · intro q hq
        rw [hpay2] at hq
        exact hwf1 q hq
      · intro rid' r' hr'
        have hc2 : committedSum (recomputeReservationStatus db1 rid0) rid' = committedSum db1 rid' := by
          unfold committedSum
          rw [hpay2]
        have hc1 : committedSum db1 rid' = committedSum db rid' :=
          committedSumL_markPaid rid' pid pa er now db.payments fun q hq => (hwf q hq).2
        obtain ⟨r0, hr0, htot⟩ := recompute_total db1 rid0 rid' r' hr'
        have hr0' : db.findReservation rid' = some r0 := hr0
        have hbase := hb rid' r0 hr0'
        rw [hc2, hc1, ← htot]
        exact hbase
  | remove pid =>
    cases hfp : db.findPayment pid with
    | none =>
      have he : removePayment db pid = .error PayErr.payment_not_found := by
        unfold removePayment
        rw [hfp]
      simp only [applyLedgerOp, he]
      exact ⟨hwf, hb⟩
    | some p =>
      by_cases hpd : p.status = PStatus.PAID
      · have he : removePayment db pid = .error PayErr.cannot_delete_paid_payment := by
          simp only [removePayment, hfp, if_pos hpd]
        simp only [applyLedgerOp, he]
        exact ⟨hwf, hb⟩
      · have he : removePayment db pid =
            .ok { db with payments := db.payments.filter (fun q => decide (¬q.id = pid)) } := by
          simp only [removePayment, hfp, if_neg hpd]
        simp only [applyLedgerOp, he]
        constructor
        · intro q hq
          exact hwf q (List.mem_of_mem_filter hq)
        · intro rid' r' hr'
          have hr'' : db.findReservation rid' = some r' := hr'
          have hbase := hb rid' r' hr''
          have hsplit := committedSumL_remove_split rid' pid db.payments
          have hnn : 0 ≤ committedSumL rid' (db.payments.filter (fun q => decide (q.id = pid))) :=
            committedSumL_nonneg rid' _ fun q hq => le_of_lt (hwf q (List.mem_of_mem_filter hq)).1
          show committedSumL rid' (db.payments.filter (fun q => decide (¬q.id = pid)))
              ≤ r'.total_amount + 1 / 10000
          have : committedSum db rid' = committedSumL rid' db.payments := rfl
          rw [this] at hbase
          linarith [hsplit]

/-- A sequence of ledger requests preserves the invariant. -/
theorem applyLedgerOps_inv (ops : List LedgerOp) (db : DB)
    (hwf : PaymentsWF db) (hb : LedgerBound db) :
    PaymentsWF (applyLedgerOps db ops) ∧ LedgerBound (applyLedgerOps db ops) := by
  induction ops generalizing db with
  | nil => exact ⟨hwf, hb⟩
  | cons op ops ih =>
    have h1 := applyLedgerOp_inv db op hwf hb
    exact ih (applyLedgerOp db op) h1.1 h1.2

/-- Counterexample to C2 as stated: starting from a reservation of total
200 with no payments, a single `registerPayment` of 200.0001 is accepted
(it is within the `remaining + 0.0001` tolerance), after which the
committed PENDING + PAID sum strictly exceeds the reservation's
`total_amount`. -/
theorem C2_counterexample_eps_overshoot :
    dbC2.payments = []
    ∧ (applyLedgerOps dbC2 [LedgerOp.register 1 1 bodyC2]).findReservation 1 = some r0911
    ∧ r0911.total_amount = 200
    ∧ committedSum (applyLedgerOps dbC2 [LedgerOp.register 1 1 bodyC2]) 1 =
        200 + 1 / 10000
    ∧ 200 + 1 / 10000 > (200 : ℚ) := by
  have hacc : registerPayment dbC2 1 bodyC2 1 =
      .ok ({ dbC2 with payments := dbC2.payments ++
              [newPendingPayment 1 1 (2000001 / 10000) "PIX" bodyC2] },
        newPendingPayment 1 1 (2000001 / 10000) "PIX" bodyC2) :=
    registerPayment_accept dbC2 1 1 bodyC2 r0911 (2000001 / 10000) "PIX" rfl rfl
      (by norm_num) rfl (by decide)
      (by
        show ¬(2000001 : ℚ) / 10000 > 200 - 0 + 1 / 10000
        norm_num)
  have hstate : applyLedgerOps dbC2 [LedgerOp.register 1 1 bodyC2] =
      { dbC2 with payments := dbC2.payments ++
          [newPendingPayment 1 1 (2000001 / 10000) "PIX" bodyC2] } := by
    show applyLedgerOp dbC2 (LedgerOp.register 1 1 bodyC2) = _
    simp only [applyLedgerOp, hacc]
  refine ⟨rfl, ?_, rfl, ?_, by norm_num⟩
  · rw [hstate]
    rfl
  · rw [hstate]
    show committedSumL 1 (dbC2.payments ++ [newPendingPayment 1 1 (2000001 / 10000) "PIX" bodyC2])
        = 200 + 1 / 10000
    simp [committedSumL, newPendingPayment]
    norm_num

/-- C2 (amended with the ε tolerance the code actually enforces): from
any state with no payments and nonnegative reservation totals, after any
sequence of register/confirm/remove ledger requests, the committed
PENDING + PAID sum of every reservation stays within
`total_amount + 0.0001`. -/
theorem C2_ledger_bound (db0 : DB) (ops : List LedgerOp)
    (h0 : db0.payments = []) (ht : ∀ r ∈ db0.reservations, 0 ≤ r.total_amount)
    (rid : Nat) (r : Reservation)
    (hr : (applyLedgerOps db0 ops).findReservation rid = some r) :
    committedSum (applyLedgerOps db0 ops) rid ≤ r.total_amount + 1 / 10000 := by
  have hwf : PaymentsWF db0 := by
    intro p hp
    rw [h0] at hp
    cases hp
  have hb : LedgerBound db0 := by
    intro rid' r' hr'
    have hz : committedSum db0 rid' = 0 := by
      unfold committedSum
      rw [h0]
      rfl
    rw [hz]
    have hmem : r' ∈ db0.reservations := List.mem_of_find?_eq_some hr'
    have htot := ht r' hmem
    have heps : (0 : ℚ) < 1 / 10000 := by norm_num
    linarith
  exact (applyLedgerOps_inv ops db0 hwf hb).2 rid r hr

/-- Witness for C2 (amended): the scenario-4 prefix — register 150, then
50, then confirm both — keeps the committed sum within 200 + 0.0001. -/
theorem C2_ledger_bound_witness :
    committedSum (applyLedgerOps dbC2 [LedgerOp.register 1 1 body150]) 1 ≤
      r0911.total_amount + 1 / 10000 := by
  have hacc : registerPayment dbC2 1 body150 1 =
      .ok ({ dbC2 with payments := dbC2.payments ++
              [newPendingPayment 1 1 150 "PIX" body150] },
        newPendingPayment 1 1 150 "PIX" body150) :=
    registerPayment_accept dbC2 1 1 body150 r0911 150 "PIX" rfl rfl
      (by norm_num) rfl (by decide)
      (by
        show ¬(150 : ℚ) > 200 - 0 + 1 / 10000
        norm_num)
  have hfind : (applyLedgerOps dbC2 [LedgerOp.register 1 1 body150]).findReservation 1 =
      some r0911 := by
    show (applyLedgerOp dbC2 (LedgerOp.register 1 1 body150)).findReservation 1 = some r0911
    simp only [applyLedgerOp, hacc]
    rfl
  exact C2_ledger_bound dbC2 [LedgerOp.register 1 1 body150] rfl
    (by
      intro r hr
      rw [List.mem_singleton.mp hr]
      show (0 : ℚ) ≤ 200
      norm_num)
    1 r0911 hfind

end MeuCantinho
